import Mathlib

/-!
Shallow embedding of `src/app.py` (BKJ valuation backend): the Carzone
source attempt, the DoneDeal fallback source attempt, and the `/api/valuation`
orchestrator, together with proofs settling the specification claims.

Conventions of the embedding:
* Python scalar values that the filters inspect are modelled by `PyVal`
  (numbers as exact rationals; Python `bool` counts as numeric because
  `isinstance(True, int)` holds in Python).
* Upstream HTTP interactions are modelled as oracle inputs: a value of
  `CZUpstream` / `DDUpstream` describes what the network returned (or that an
  exception was raised somewhere inside the `try` block).  The functions are
  total, mirroring the fact that the Python functions catch every exception.
* String helpers (`pyStrip`, `pyLower`, `cleanStr`, `strIn`, `pyInt`) model the
  corresponding Python operations (`str.strip`, `str.lower`,
  `re.sub("[\s\-_]", "", ·)`, the `in` operator, `int(·)`) for ASCII input.
-/

/-- Python scalar value as inspected by the filters in `app.py`. -/
inductive PyVal where
  | none
  | int (n : Int)
  | float (q : Rat)
  | str (s : String)
  | bool (b : Bool)
deriving DecidableEq, Repr

/-- Python truthiness of a `PyVal` (`if p` / `if not p`). -/
def truthyB : PyVal → Bool
  | PyVal.none => false
  | PyVal.int n => n ≠ 0
  | PyVal.float q => q ≠ 0
  | PyVal.str s => s ≠ ""
  | PyVal.bool b => b

/-- Models `isinstance(p, (int, float))`; `bool` is a subclass of `int` in Python. -/
def isNumB : PyVal → Bool
  | PyVal.int _ => true
  | PyVal.float _ => true
  | PyVal.bool _ => true
  | _ => false

/-- Numeric value of a `PyVal` (0 for non-numeric values, which the guards
never compare because `isNumB` is checked first). -/
def ratOf : PyVal → Rat
  | PyVal.int n => (n : Rat)
  | PyVal.float q => q
  | PyVal.bool b => if b then 1 else 0
  | _ => 0

/-- Models Python `str(v)` for the values in scope (the rational rendering of a
float differs textually from CPython repr; no claim depends on it). -/
def pyStr : PyVal → String
  | PyVal.none => "None"
  | PyVal.int n => toString n
  | PyVal.float q => toString q
  | PyVal.str s => s
  | PyVal.bool b => if b then "True" else "False"

/-- ASCII whitespace stripped by Python `str.strip()` and matched by regex `\s`. -/
def pyIsSpace (c : Char) : Bool :=
  c = ' ' || c = '\t' || c = '\n' || c = '\r' || c = '\x0b' || c = '\x0c'

/-- Drop leading ASCII whitespace from a character list. -/
def dropWs : List Char → List Char
  | [] => []
  | c :: rest => if pyIsSpace c then dropWs rest else c :: rest

/-- Models Python `str.strip()` (ASCII whitespace). -/
def pyStrip (s : String) : String :=
  String.mk (List.reverse (dropWs (List.reverse (dropWs s.toList))))

/-- ASCII lower-casing of one character. -/
def lowerChar (c : Char) : Char :=
  if 'A' ≤ c ∧ c ≤ 'Z' then Char.ofNat (c.toNat + 32) else c

/-- Models Python `str.lower()` (ASCII). -/
def pyLower (s : String) : String :=
  String.mk (s.toList.map lowerChar)

/-- Character class of the regex `[\s\-_]` used for fuzzy-title normalisation. -/
def stripFuzzyChar (c : Char) : Bool :=
  pyIsSpace c || c = '-' || c = '_'

/-- Models `re.sub(r"[\s\-_]", "", s)`. -/
def cleanStr (s : String) : String :=
  String.mk (s.toList.filter (fun c => !stripFuzzyChar c))

/-- Boolean list-prefix test. -/
def isPrefixB : List Char → List Char → Bool
  | [], _ => true
  | _ :: _, [] => false
  | a :: as, b :: bs => a = b && isPrefixB as bs

/-- Boolean substring (contiguous) test on character lists. -/
def containsB : List Char → List Char → Bool
  | needle, [] => isPrefixB needle []
  | needle, c :: t => isPrefixB needle (c :: t) || containsB needle t

/-- Models the Python `needle in hay` substring test. -/
def strIn (needle hay : String) : Bool :=
  containsB needle.toList hay.toList

/-- Models `" ".join(strings)`. -/
def joinSpace : List String → String
  | [] => ""
  | [s] => s
  | s :: rest => s ++ " " ++ joinSpace rest

/-- Digit tail of a Python integer literal: digits with single underscores
allowed between digits, accumulating the value. -/
def pyDigitsTail : List Char → Nat → Option Nat
  | [], acc => some acc
  | '_' :: rest, acc =>
    match rest with
    | c :: rest2 =>
      if c.isDigit then pyDigitsTail rest2 (acc * 10 + (c.toNat - 48)) else Option.none
    | [] => Option.none
  | c :: rest, acc =>
    if c.isDigit then pyDigitsTail rest (acc * 10 + (c.toNat - 48)) else Option.none

/-- Nonempty digit run starting a Python integer literal. -/
def pyDigits : List Char → Option Nat
  | [] => Option.none
  | c :: rest => if c.isDigit then pyDigitsTail rest (c.toNat - 48) else Option.none

/-- Models Python `int(s)` on ASCII input: surrounding whitespace stripped,
optional sign, decimal digits with single interior underscores; any other
shape raises `ValueError`, modelled as `none`. -/
def pyInt (s : String) : Option Int :=
  match (pyStrip s).toList with
  | '+' :: rest => (pyDigits rest).map Int.ofNat
  | '-' :: rest => (pyDigits rest).map (fun n => -(n : Int))
  | cs => (pyDigits cs).map Int.ofNat

/-- A raw Carzone listing record: the key/value bag of one `car` JSON object.
Keys are unique as in a Python dict; lookup takes the first binding. -/
def Car : Type := List (String × PyVal)

/-- Models `car.get(key)` on the record bag. -/
def carGet : Car → String → Option PyVal
  | [], _ => Option.none
  | (k, v) :: rest, key => if k = key then some v else carGet rest key

/-- The fixed priority order of price field names tried in
`get_lowest_carzone_price` (app.py line 66). -/
def priceKeys : List String :=
  ["price", "Price", "askingPrice", "asking_price", "salePrice"]

/-- The Carzone per-field validity guard `p and isinstance(p, (int, float)) and p > 500`. -/
def czValidB (p : PyVal) : Bool :=
  truthyB p && isNumB p && decide ((500 : Rat) < ratOf p)

/-- The key loop of app.py lines 66-70: try each price key in order; the first
key whose value passes the guard contributes `float(p)` and breaks; a key whose
value fails the guard (absent, falsy, non-numeric, or ≤ 500) moves on to the
next key. -/
def carPriceAux : List String → Car → Option Rat
  | [], _ => Option.none
  | k :: ks, car =>
    let p := (carGet car k).getD PyVal.none
    if czValidB p then some (ratOf p) else carPriceAux ks car

/-- Price extracted from one Carzone record (app.py lines 65-70). -/
def carPrice (car : Car) : Option Rat :=
  carPriceAux priceKeys car

/-- The `prices` list built by the Carzone extraction loop (one entry per car
that yields a price, in car order). -/
def carzonePrices (cars : List Car) : List Rat :=
  cars.filterMap carPrice

/-- Python `min(a, b)` keeping the first argument on ties. -/
def min2 (a b : Rat) : Rat :=
  if b < a then b else a

/-- Models Python `min(prices)` guarded by `if not prices` : `none` on the
empty list, otherwise the least element (first-seen on ties). -/
def listMin : List Rat → Option Rat
  | [] => Option.none
  | x :: xs => some (xs.foldl min2 x)

/-- Parsed JSON body of a 200 Carzone response (app.py lines 58-62): either a
top-level list of cars, or an object; in the object case each of the keys
`cars`, `stock`, `results` may be present with a list value. -/
inductive CZData where
  | list (cars : List Car)
  | obj (cars stock results : Option (List Car))

/-- Models `data.get("cars", data.get("stock", data.get("results", [])))`. -/
def czCars : CZData → List Car
  | CZData.list cs => cs
  | CZData.obj c s r => c.getD (s.getD (r.getD []))

/-- Oracle input describing the upstream interaction of one Carzone attempt:
either some exception was raised inside the `try` block (connection error,
timeout, JSON decode failure, ...), or an HTTP response arrived with the given
status code and (when the code is 200 and the body decodes) parsed body. -/
inductive CZUpstream where
  | raises (msg : String)
  | status (code : Nat) (data : CZData)

/-- The triple returned by `get_lowest_carzone_price`. -/
structure CZResult where
  price : Option Rat
  url : String
  error : Option String
deriving Repr

/-- The human-facing Carzone search URL built at app.py lines 37-41. -/
def carzoneSearchUrl (make model year : String) (maxMileage : Int) : String :=
  "https://www.carzone.ie/search?make=" ++ make ++ "&model=" ++ model ++
    "&minYear=" ++ year ++ "&maxYear=" ++ year ++
    "&maxMileage=" ++ toString maxMileage ++ "&sellerType=Trade&sort=PriceAsc"

/-- Embedding of `get_lowest_carzone_price` (app.py lines 26-78): non-200
status yields a status error; an exception anywhere in the `try` block yields a
`Carzone error:` message; otherwise the filtered prices are collected and
their minimum returned, with a no-prices error when the list is empty.  The
search URL is returned on every path. -/
def get_lowest_carzone_price (make model year : String) (max_mileage : Int)
    (u : CZUpstream) : CZResult :=
  let url := carzoneSearchUrl make model year max_mileage
  match u with
  | CZUpstream.raises msg => ⟨Option.none, url, some ("Carzone error: " ++ msg)⟩
  | CZUpstream.status code data =>
    if code ≠ 200 then
      ⟨Option.none, url, some ("Carzone returned status " ++ toString code)⟩
    else
      match listMin (carzonePrices (czCars data)) with
      | Option.none => ⟨Option.none, url, some "No prices found in Carzone response"⟩
      | some m => ⟨some m, url, Option.none⟩

/-- One DoneDeal ad as the fallback parser reads it (app.py lines 119-134):
`priceInEuro` is the value of `(ad.get("priceInfo") or {}).get("priceInEuro")`
(`none` when the key chain is absent or `priceInfo` is falsy); the three title
sources mirror `ad.get("title")`, `ad.get("header", {}).get("displayName", "")`
and `ad.get("displayAttributes") or []`. -/
structure Ad where
  priceInEuro : Option PyVal
  title : Option String
  headerDisplayName : String
  displayAttributes : List PyVal
deriving DecidableEq, Repr

/-- The lowered title of an ad, app.py lines 126-130: first Python-truthy value
of the three title sources (last one kept even when falsy), lower-cased. -/
def adTitle (ad : Ad) : String :=
  let t1 := ad.title.getD ""
  let t2 := ad.headerDisplayName
  let t3 := joinSpace (ad.displayAttributes.map pyStr)
  pyLower (if t1 ≠ "" then t1 else if t2 ≠ "" then t2 else t3)

/-- First-pass filter of one ad (app.py lines 119-134): skip unless the price
is truthy, numeric and not `< 500`; then keep `float(price)` only when the
normalised model name occurs in the normalised title. -/
def ddPass1Price (model_clean : String) (ad : Ad) : Option Rat :=
  let price := ad.priceInEuro.getD PyVal.none
  if truthyB price && isNumB price && !decide (ratOf price < (500 : Rat)) then
    if strIn model_clean (cleanStr (adTitle ad)) then some (ratOf price)
    else Option.none
  else Option.none

/-- Second-pass filter of one ad (app.py lines 138-142): keep `float(price)`
when the price is truthy, numeric and `> 500`; no title constraint. -/
def ddPass2Price (ad : Ad) : Option Rat :=
  let price := ad.priceInEuro.getD PyVal.none
  if truthyB price && isNumB price && decide ((500 : Rat) < ratOf price) then
    some (ratOf price)
  else Option.none

/-- The `prices` list of the DoneDeal attempt (app.py lines 115-142): the
first, title-matching pass over the ads; when it is empty, the relaxed second
pass over the same ads. -/
def ddSelectPrices (model : String) (ads : List Ad) : List Rat :=
  let p1 := ads.filterMap (ddPass1Price (pyLower (cleanStr model)))
  match p1 with
  | [] => ads.filterMap ddPass2Price
  | _ => p1

/-- Result of locating and parsing the `__NEXT_DATA__` blob in a 200 DoneDeal
page (app.py lines 100-109): the marker may be missing, or it parses and the
`props.pageProps.ads` path yields the (possibly empty) ads list. -/
inductive DDPage where
  | noNextData
  | nextData (ads : List Ad)

/-- Oracle input describing the upstream interaction of one DoneDeal attempt. -/
inductive DDUpstream where
  | raises (msg : String)
  | status (code : Nat) (page : DDPage)

/-- The pair returned by `get_lowest_donedeal_price`. -/
structure DDResult where
  price : Option Rat
  error : Option String
deriving Repr, DecidableEq

/-- Replace each space by `+`, modelling `model.replace(" ", "+")`. -/
def replaceSpace (s : String) : String :=
  String.mk (s.toList.map (fun c => if c = ' ' then '+' else c))

/-- The DoneDeal search URL built at app.py lines 88-92; note it has no
mileage parameter. -/
def donedealUrl (make model year : String) : String :=
  "https://www.donedeal.ie/cars?make=" ++ make ++ "&model=" ++ replaceSpace model ++
    "&year_from=" ++ year ++ "&year_to=" ++ year ++ "&seller_type=dealer&sort=price_asc"

/-- Embedding of `get_lowest_donedeal_price` (app.py lines 83-150): status
check, `__NEXT_DATA__` extraction, empty-ads check, the two filter passes, and
the minimum; every failure path returns a classified message and an exception
anywhere in the `try` block returns a `DoneDeal error:` message. -/
def get_lowest_donedeal_price (make model year : String) (u : DDUpstream) : DDResult :=
  match u with
  | DDUpstream.raises msg => ⟨Option.none, some ("DoneDeal error: " ++ msg)⟩
  | DDUpstream.status code page =>
    if code ≠ 200 then
      ⟨Option.none, some ("DoneDeal returned status " ++ toString code)⟩
    else
      match page with
      | DDPage.noNextData => ⟨Option.none, some "DoneDeal: __NEXT_DATA__ not found in page"⟩
      | DDPage.nextData ads =>
        match ads with
        | [] => ⟨Option.none, some "DoneDeal: no ads in response"⟩
        | _ :: _ =>
          match listMin (ddSelectPrices model ads) with
          | Option.none => ⟨Option.none, some "DoneDeal: no valid prices found"⟩
          | some m => ⟨some m, Option.none⟩

/-- Trimmed `make` request parameter (app.py line 162; absent parameter
defaults to the empty string). -/
def vMake (mk : Option String) : String := pyStrip (mk.getD "")

/-- Trimmed `model` request parameter (app.py line 163). -/
def vModel (md : Option String) : String := pyStrip (md.getD "")

/-- Trimmed `year` request parameter (app.py line 164). -/
def vYear (yr : Option String) : String := pyStrip (yr.getD "")

/-- Trimmed `mileage` request parameter, defaulting to "0" (app.py line 165). -/
def vMileage (mi : Option String) : String := pyStrip (mi.getD "0")

/-- `max_mileage` as computed at app.py lines 170-175: `int(mileage)` with
`ValueError` collapsing to 0, plus 20000. -/
def vMaxMileage (mi : Option String) : Int :=
  (pyInt (vMileage mi)).getD 0 + 20000

/-- Oracle describing the world outside the process: what each upstream
returns as a function of the query the code sends it. -/
structure World where
  carzone : String → String → String → Int → CZUpstream
  donedeal : String → String → String → DDUpstream

/-- One outbound source attempt recorded by the orchestrator embedding: the
Carzone attempt carries the query parameters including the mileage bound; the
DoneDeal attempt carries the request URL built from make/model/year only. -/
inductive Call where
  | carzone (make model year : String) (maxMileage : Int)
  | donedeal (url : String)
deriving DecidableEq, Repr

/-- The JSON body (plus HTTP status) that `valuation` hands to the caller. -/
structure Resp where
  success : Bool
  lowest_price : Option Rat
  carzone_url : Option String
  source : Option String
  error : Option String
  donedeal_error : Option String
  status : Nat

/-- The Carzone attempt of one request (app.py lines 178-180). -/
def czRes (mk md yr mi : Option String) (w : World) : CZResult :=
  get_lowest_carzone_price (vMake mk) (vModel md) (vYear yr) (vMaxMileage mi)
    (w.carzone (vMake mk) (vModel md) (vYear yr) (vMaxMileage mi))

/-- The DoneDeal attempt of one request (app.py line 193). -/
def ddRes (mk md yr : Option String) (w : World) : DDResult :=
  get_lowest_donedeal_price (vMake mk) (vModel md) (vYear yr)
    (w.donedeal (vMake mk) (vModel md) (vYear yr))

/-- The Call value of the Carzone attempt. -/
def czCall (mk md yr mi : Option String) : Call :=
  Call.carzone (vMake mk) (vModel md) (vYear yr) (vMaxMileage mi)

/-- The Call value of the DoneDeal attempt. -/
def ddCall (mk md yr : Option String) : Call :=
  Call.donedeal (donedealUrl (vMake mk) (vModel md) (vYear yr))

/-- Embedding of the `/api/valuation` route (app.py lines 160-213): presence
validation of make/model/year, mileage parsing, the Carzone attempt, the
DoneDeal fallback when Carzone yields no price, and the three response shapes.
The second component records the outbound source attempts in order. -/
def valuation (mk md yr mi : Option String) (w : World) : Resp × List Call :=
  if vMake mk = "" ∨ vModel md = "" ∨ vYear yr = "" then
    (⟨false, Option.none, Option.none, Option.none,
      some "Missing make, model or year", Option.none, 400⟩, [])
  else
    match (czRes mk md yr mi w).price with
    | some p =>
      (⟨true, some p, some (czRes mk md yr mi w).url, some "carzone",
        Option.none, Option.none, 200⟩, [czCall mk md yr mi])
    | Option.none =>
      match (ddRes mk md yr w).price with
      | some p =>
        (⟨true, some p, some (czRes mk md yr mi w).url, some "donedeal",
          Option.none, Option.none, 200⟩, [czCall mk md yr mi, ddCall mk md yr])
      | Option.none =>
        (⟨false, Option.none, some (czRes mk md yr mi w).url, Option.none,
          (czRes mk md yr mi w).error, (ddRes mk md yr w).error, 503⟩,
         [czCall mk md yr mi, ddCall mk md yr])

/-- The request passes the presence validation at app.py line 167. -/
@[reducible] def validParams (mk md yr : Option String) : Prop :=
  ¬ (vMake mk = "" ∨ vModel md = "" ∨ vYear yr = "")

/-- The spec wording of the Carzone price extraction, for refinement
comparison: the value under the first price field name present in the record,
regardless of that value's validity. -/
def specFirstPresentPrice : List String → Car → Option PyVal
  | [], _ => Option.none
  | k :: ks, car =>
    match carGet car k with
    | some v => some v
    | Option.none => specFirstPresentPrice ks car

lemma min2_le_left (a b : Rat) : min2 a b ≤ a := by
  unfold min2; split
  · exact le_of_lt (by assumption)
  · exact le_refl a

lemma min2_le_right (a b : Rat) : min2 a b ≤ b := by
  unfold min2; split
  · exact le_refl b
  · exact not_lt.mp (by assumption)

lemma min2_eq_or (a b : Rat) : min2 a b = a ∨ min2 a b = b := by
  unfold min2; split
  · exact Or.inr rfl
  · exact Or.inl rfl

lemma foldl_min2_le_init (l : List Rat) : ∀ x : Rat, l.foldl min2 x ≤ x := by
  induction l with
  | nil => intro x; exact le_refl x
  | cons z zs ih =>
    intro x
    exact le_trans (ih (min2 x z)) (min2_le_left x z)

lemma foldl_min2_le_mem (l : List Rat) :
    ∀ x y : Rat, y ∈ l → l.foldl min2 x ≤ y := by
  induction l with
  | nil => intro x y hy; cases hy
  | cons z zs ih =>
    intro x y hy
    rcases List.mem_cons.mp hy with h | h
    · subst h
      exact le_trans (foldl_min2_le_init zs (min2 x y)) (min2_le_right x y)
    · exact ih (min2 x z) y h

lemma foldl_min2_mem (l : List Rat) :
    ∀ x : Rat, l.foldl min2 x = x ∨ l.foldl min2 x ∈ l := by
  induction l with
  | nil => intro x; exact Or.inl rfl
  | cons z zs ih =>
    intro x
    rcases ih (min2 x z) with h | h
    · rcases min2_eq_or x z with h2 | h2
      · exact Or.inl (h.trans h2)
      · exact Or.inr (List.mem_cons.mpr (Or.inl (h.trans h2)))
    · exact Or.inr (List.mem_cons.mpr (Or.inr h))

lemma cz_url_eq (make model year : String) (mm : Int) (u : CZUpstream) :
    (get_lowest_carzone_price make model year mm u).url =
      carzoneSearchUrl make model year mm := by
  cases u with
  | raises m => rfl
  | status c d =>
    simp only [get_lowest_carzone_price]
    split
    · rfl
    · split <;> rfl

lemma cz_none_has_error (make model year : String) (mm : Int) (u : CZUpstream)
    (h : (get_lowest_carzone_price make model year mm u).price = Option.none) :
    ∃ e, (get_lowest_carzone_price make model year mm u).error = some e := by
  cases u with
  | raises m => exact ⟨_, rfl⟩
  | status c d =>
    by_cases hc : c ≠ 200
    · exact ⟨"Carzone returned status " ++ toString c,
        by simp [get_lowest_carzone_price, hc]⟩
    · simp only [get_lowest_carzone_price, hc, if_false] at h ⊢
      cases hm : listMin (carzonePrices (czCars d)) with
      | none => exact ⟨"No prices found in Carzone response", by simp [hm]⟩
      | some m => simp [hm] at h

lemma dd_none_has_error (make model year : String) (u : DDUpstream)
    (h : (get_lowest_donedeal_price make model year u).price = Option.none) :
    ∃ e, (get_lowest_donedeal_price make model year u).error = some e := by
  cases u with
  | raises m => exact ⟨_, rfl⟩
  | status c page =>
    by_cases hc : c ≠ 200
    · exact ⟨"DoneDeal returned status " ++ toString c,
        by simp [get_lowest_donedeal_price, hc]⟩
    · simp only [get_lowest_donedeal_price, hc, if_false] at h ⊢
      cases page with
      | noNextData => exact ⟨"DoneDeal: __NEXT_DATA__ not found in page", rfl⟩
      | nextData ads =>
        cases ads with
        | nil => exact ⟨"DoneDeal: no ads in response", rfl⟩
        | cons a rest =>
          cases hm : listMin (ddSelectPrices model (a :: rest)) with
          | none => exact ⟨"DoneDeal: no valid prices found", by simp [hm]⟩
          | some m => simp [hm] at h

lemma carPriceAux_gt (ks : List String) (car : Car) (q : Rat)
    (h : carPriceAux ks car = some q) : (500 : Rat) < q := by
  induction ks with
  | nil => simp [carPriceAux] at h
  | cons k ks ih =>
    simp only [carPriceAux] at h
    by_cases hb : czValidB ((carGet car k).getD PyVal.none) = true
    · rw [if_pos hb] at h
      injection h with h2
      simp only [czValidB, Bool.and_eq_true, decide_eq_true_eq] at hb
      exact h2 ▸ hb.2
    · rw [if_neg hb] at h
      exact ih h

/-- C5: for every non-empty price list, `min(prices)` is a member and a lower
bound of the list; for the empty list the selector yields no price (the
callers then produce their typed no-prices error). -/
theorem c5_selector_minimum (l : List Rat) :
    (listMin l = Option.none ↔ l = []) ∧
    (∀ q : Rat, listMin l = some q → q ∈ l ∧ ∀ x ∈ l, q ≤ x) := by
  constructor
  · constructor
    · intro h
      cases l with
      | nil => rfl
      | cons x xs => simp [listMin] at h
    · intro h; subst h; rfl
  · intro q hq
    cases l with
    | nil => simp [listMin] at hq
    | cons x xs =>
      simp only [listMin, Option.some.injEq] at hq
      subst hq
      refine ⟨?_, ?_⟩
      · rcases foldl_min2_mem xs x with h | h
        · rw [h]; exact List.mem_cons_self x xs
        · exact List.mem_cons.mpr (Or.inr h)
      · intro y hy
        rcases List.mem_cons.mp hy with h | h
        · subst h; exact foldl_min2_le_init xs y
        · exact foldl_min2_le_mem xs x y h

/-- Witness for C5 at the spec's concrete scenario prices 12000 and 9500. -/
theorem c5_selector_minimum_witness :
    (9500 : Rat) ∈ [(12000 : Rat), 9500] ∧ ∀ x ∈ [(12000 : Rat), 9500], (9500 : Rat) ≤ x :=
  (c5_selector_minimum [12000, 9500]).2 9500 (by decide)

/-- A Carzone record with a valid price and a mileage field far above any
requested ceiling; the extraction filter never reads the mileage field. -/
def carC3 : Car := [("price", PyVal.int 600), ("mileage", PyVal.int 999999)]

/-- A DoneDeal ad priced exactly at the 500 sanity floor with a matching title. -/
def adC3 : Ad := ⟨some (PyVal.int 500), some "Toyota Corolla 1.6", "", []⟩

/-- C3 as stated is false: with a requested ceiling of 100 the Carzone filter
passes a record whose mileage field is 999999 (mileage is never checked
locally), and the DoneDeal first pass passes a price of exactly 500, which is
not strictly greater than the sanity floor. -/
theorem c3_counterexample :
    (get_lowest_carzone_price "Toyota" "Corolla" "2015" 100
        (CZUpstream.status 200 (CZData.list [carC3]))).price = some 600 ∧
    carGet carC3 "mileage" = some (PyVal.int 999999) ∧
    ¬ ((999999 : Int) ≤ 100) ∧
    ddPass1Price "corolla" adC3 = some 500 ∧
    ¬ ((500 : Rat) > 500) := by decide

/-- C3 amended: candidates passing the Carzone filter have price strictly
above 500; candidates passing the DoneDeal first pass have price at least 500
and those passing the second pass have price strictly above 500; no filter
reads mileage — the Carzone price outcome is independent of the requested
ceiling (which is only forwarded upstream as a query parameter). -/
theorem c3_amended :
    (∀ (car : Car) (q : Rat), carPrice car = some q → (500 : Rat) < q) ∧
    (∀ (mc : String) (ad : Ad) (q : Rat), ddPass1Price mc ad = some q → (500 : Rat) ≤ q) ∧
    (∀ (ad : Ad) (q : Rat), ddPass2Price ad = some q → (500 : Rat) < q) ∧
    (∀ (make model year : String) (mm mm2 : Int) (u : CZUpstream),
      (get_lowest_carzone_price make model year mm u).price =
        (get_lowest_carzone_price make model year mm2 u).price) := by
  refine ⟨?_, ?_, ?_, ?_⟩
  · intro car q h
    exact carPriceAux_gt priceKeys car q h
  · intro mc ad q h
    simp only [ddPass1Price] at h
    split at h
    · split at h
      · injection h with h2
        rename_i hb _
        simp only [Bool.and_eq_true, Bool.not_eq_eq_eq_not, Bool.not_true,
          decide_eq_false_iff_not, not_lt] at hb
        exact h2 ▸ hb.2
      · cases h
    · cases h
  · intro ad q h
    simp only [ddPass2Price] at h
    split at h
    · injection h with h2
      rename_i hb
      simp only [Bool.and_eq_true, decide_eq_true_eq] at hb
      exact h2 ▸ hb.2
    · cases h
  · intro make model year mm mm2 u
    cases u with
    | raises m => rfl
    | status c d =>
      by_cases hc : c ≠ 200
      · simp [get_lowest_carzone_price, hc]
      · simp only [get_lowest_carzone_price, hc, if_false]
        cases hm : listMin (carzonePrices (czCars d)) with
        | none => simp [hm]
        | some m => simp [hm]

/-- Witness for C3 amended at concrete inputs. -/
theorem c3_amended_witness : (500 : Rat) < 600 ∧ (500 : Rat) ≤ 500 :=
  ⟨c3_amended.1 [("price", PyVal.int 600)] 600 (by decide),
   c3_amended.2.1 "corolla" adC3 500 (by decide)⟩

/-- A Carzone record where the first price key in priority order is present
but invalid (200 is below the sanity floor) and a later key holds 9000. -/
def carC8 : Car := [("price", PyVal.int 200), ("Price", PyVal.int 9000)]

/-- C8 as stated is false: in `carC8` the first priority field present is
`price` with value 200, but the extraction uses 9000 from the later `Price`
field because the loop only stops at a field that passes the validity guard. -/
theorem c8_counterexample :
    specFirstPresentPrice priceKeys carC8 = some (PyVal.int 200) ∧
    carPrice carC8 = some 9000 ∧
    ratOf (PyVal.int 200) ≠ (9000 : Rat) := by decide

/-- C8 amended: the price used for a raw Carzone listing is the value of the
first field name in priority order whose value is truthy, numeric and above
500; present-but-invalid fields are skipped and later fields still consulted. -/
theorem c8_amended (ks : List String) (car : Car) (q : Rat) :
    carPriceAux ks car = some q ↔
      ∃ pre k post, ks = pre ++ k :: post ∧
        czValidB ((carGet car k).getD PyVal.none) = true ∧
        q = ratOf ((carGet car k).getD PyVal.none) ∧
        ∀ k2 ∈ pre, czValidB ((carGet car k2).getD PyVal.none) = false := by
  induction ks with
  | nil =>
    constructor
    · intro h; simp [carPriceAux] at h
    · rintro ⟨pre, k, post, hks, -, -, -⟩
      cases pre <;> simp at hks
  | cons k ks ih =>
    constructor
    · intro h
      simp only [carPriceAux] at h
      by_cases hb : czValidB ((carGet car k).getD PyVal.none) = true
      · rw [if_pos hb] at h
        injection h with h2
        exact ⟨[], k, ks, rfl, hb, h2.symm, by intro k2 hk2; cases hk2⟩
      · rw [if_neg hb] at h
        obtain ⟨pre, k3, post, hks, hv, hq, hpre⟩ := ih.mp h
        refine ⟨k :: pre, k3, post, by rw [hks]; rfl, hv, hq, ?_⟩
        intro k2 hk2
        rcases List.mem_cons.mp hk2 with h2 | h2
        · subst h2
          simp only [Bool.not_eq_true] at hb
          exact hb
        · exact hpre k2 h2
    · rintro ⟨pre, k3, post, hks, hv, hq, hpre⟩
      cases pre with
      | nil =>
        simp only [List.nil_append] at hks
        injection hks with h1 h2
        subst h1
        simp only [carPriceAux]
        rw [if_pos hv, hq]
      | cons k0 pre2 =>
        simp only [List.cons_append] at hks
        injection hks with h1 h2
        have hk0 : czValidB ((carGet car k).getD PyVal.none) = false := by
          rw [h1]; exact hpre k0 (List.mem_cons_self k0 pre2)
        simp only [carPriceAux]
        rw [if_neg (by simp [hk0])]
        exact ih.mpr ⟨pre2, k3, post, h2, hv, hq,
          fun k2 hk2 => hpre k2 (List.mem_cons.mpr (Or.inr hk2))⟩

/-- Witness for C8 amended: the decomposition picking the `Price` field of
`carC8` after skipping the invalid `price` field yields 9000. -/
theorem c8_amended_witness : carPriceAux priceKeys carC8 = some 9000 :=
  (c8_amended priceKeys carC8 9000).mpr
    ⟨["price"], "Price", ["askingPrice", "asking_price", "salePrice"], rfl,
      by decide, by decide, by decide⟩

/-- A world in which both upstream sources raise a connection error. -/
def wFail : World :=
  ⟨fun _ _ _ _ => CZUpstream.raises "blocked",
   fun _ _ _ => DDUpstream.raises "blocked"⟩

/-- A world realising the spec's success scenario: Carzone answers 200 with
two listings priced 12000 and 9500. -/
def wC1 : World :=
  ⟨fun _ _ _ _ => CZUpstream.status 200 (CZData.list
      [[("price", PyVal.int 12000)], [("price", PyVal.int 9500)]]),
   fun _ _ _ => DDUpstream.raises "unused"⟩

/-- C1 as stated is false: in the spec's own scenario (listings priced 12000
and 9500) the endpoint reports 9500 itself, not 9500 − 4000 = 5500; the
backend subtracts no margin. -/
theorem c1_counterexample :
    (valuation (some "Toyota") (some "Corolla") (some "2015") (some "50000") wC1).1.success
        = true ∧
    (valuation (some "Toyota") (some "Corolla") (some "2015") (some "50000") wC1).1.lowest_price
        = some 9500 ∧
    (valuation (some "Toyota") (some "Corolla") (some "2015") (some "50000") wC1).1.lowest_price
        ≠ some ((9500 : Rat) - 4000) := by
  refine ⟨by decide, by decide, ?_⟩
  have h : (valuation (some "Toyota") (some "Corolla") (some "2015") (some "50000")
      wC1).1.lowest_price = some 9500 := by decide
  rw [h]
  intro hc
  injection hc with hc2
  norm_num at hc2

/-- C1 amended: on the success path the value reported to the caller equals
the chosen listing's (minimum) price exactly — no fixed margin is subtracted —
and it is reported as-is without error. -/
theorem c1_amended (mk md yr mi : Option String) (w : World) :
    ((valuation mk md yr mi w).1.source = some "carzone" →
      (valuation mk md yr mi w).1.lowest_price = (czRes mk md yr mi w).price ∧
      (valuation mk md yr mi w).1.error = Option.none) ∧
    ((valuation mk md yr mi w).1.source = some "donedeal" →
      (valuation mk md yr mi w).1.lowest_price = (ddRes mk md yr w).price ∧
      (valuation mk md yr mi w).1.error = Option.none) := by
  by_cases hv : vMake mk = "" ∨ vModel md = "" ∨ vYear yr = ""
  · constructor <;> intro h <;> simp [valuation, hv] at h
  · cases hp : (czRes mk md yr mi w).price with
    | some p =>
      constructor
      · intro h; simp [valuation, hv, hp]
      · intro h; simp [valuation, hv, hp] at h
    | none =>
      cases hd : (ddRes mk md yr w).price with
      | some p =>
        constructor
        · intro h; simp [valuation, hv, hp, hd] at h
        · intro h; simp [valuation, hv, hp, hd]
      | none =>
        constructor <;> intro h <;> simp [valuation, hv, hp, hd] at h

/-- Witness for C1 amended at the spec's concrete scenario. -/
theorem c1_amended_witness :
    (valuation (some "Toyota") (some "Corolla") (some "2015") (some "50000") wC1).1.lowest_price
        = (czRes (some "Toyota") (some "Corolla") (some "2015") (some "50000") wC1).price ∧
    (valuation (some "Toyota") (some "Corolla") (some "2015") (some "50000") wC1).1.error
        = Option.none :=
  (c1_amended (some "Toyota") (some "Corolla") (some "2015") (some "50000") wC1).1 (by decide)

/-- C2 as stated is false: a malformed non-empty `year` of "abc" passes the
presence-only validation, both sources are queried, and the outcome is a 503
carrying the sources' errors, not an immediate validation error. -/
theorem c2_counterexample :
    (valuation (some "Toyota") (some "Corolla") (some "abc") Option.none wFail).2 ≠ [] ∧
    (valuation (some "Toyota") (some "Corolla") (some "abc") Option.none wFail).1.status = 503 ∧
    (valuation (some "Toyota") (some "Corolla") (some "abc") Option.none wFail).1.error
        = some "Carzone error: blocked" := by decide

/-- C2 amended: the endpoint returns its validation error with no source call
exactly when make, model or year is missing or blank after trimming; a
malformed non-empty year string such as "abc" is not rejected, and the sources
are queried with it. -/
theorem c2_amended (mk md yr mi : Option String) (w : World) :
    ((valuation mk md yr mi w).1.status = 400 ∧
      (valuation mk md yr mi w).1.error = some "Missing make, model or year" ∧
      (valuation mk md yr mi w).2 = []) ↔
    (vMake mk = "" ∨ vModel md = "" ∨ vYear yr = "") := by
  by_cases hv : vMake mk = "" ∨ vModel md = "" ∨ vYear yr = ""
  · simp [valuation, hv]
  · simp only [hv, iff_false]
    rintro ⟨h400, herr, hcalls⟩
    cases hp : (czRes mk md yr mi w).price with
    | some p => simp [valuation, hv, hp] at hcalls
    | none =>
      cases hd : (ddRes mk md yr w).price with
      | some p => simp [valuation, hv, hp, hd] at hcalls
      | none => simp [valuation, hv, hp, hd] at hcalls

/-- Witness for C2 amended: a request with every parameter absent is rejected
with the validation error and no calls. -/
theorem c2_amended_witness :
    (valuation Option.none Option.none Option.none Option.none wFail).1.status = 400 ∧
    (valuation Option.none Option.none Option.none Option.none wFail).1.error
        = some "Missing make, model or year" ∧
    (valuation Option.none Option.none Option.none Option.none wFail).2 = [] :=
  (c2_amended Option.none Option.none Option.none Option.none wFail).mpr (by decide)

/-- C4: each source is attempted at most once per request — when the Carzone
attempt yields a price the call trace is exactly the one Carzone call, and
when it yields none the trace is exactly the Carzone call followed by one
DoneDeal call. -/
theorem c4_single_attempt (mk md yr mi : Option String) (w : World)
    (h : validParams mk md yr) :
    ((czRes mk md yr mi w).price ≠ Option.none →
      (valuation mk md yr mi w).2 = [czCall mk md yr mi]) ∧
    ((czRes mk md yr mi w).price = Option.none →
      (valuation mk md yr mi w).2 = [czCall mk md yr mi, ddCall mk md yr]) := by
  constructor
  · intro hcz
    cases hp : (czRes mk md yr mi w).price with
    | none => exact absurd hp hcz
    | some p => simp [valuation, h, hp]
  · intro hcz
    cases hd : (ddRes mk md yr w).price with
    | none => simp [valuation, h, hcz, hd]
    | some p => simp [valuation, h, hcz, hd]

/-- Witness for C4 at a world in which the primary source raises: the trace is
the Carzone call followed by exactly one DoneDeal call. -/
theorem c4_single_attempt_witness :
    (valuation (some "Toyota") (some "Corolla") (some "2015") Option.none wFail).2 =
      [czCall (some "Toyota") (some "Corolla") (some "2015") Option.none,
       ddCall (some "Toyota") (some "Corolla") (some "2015")] :=
  (c4_single_attempt (some "Toyota") (some "Corolla") (some "2015") Option.none wFail
    (by decide)).2 (by decide)

/-- C6 as stated is false: a 201 response is a 2xx success status, yet the
Carzone attempt classifies it as an error and ignores the valid listing in the
body. -/
theorem c6_counterexample :
    (get_lowest_carzone_price "Toyota" "Corolla" "2015" 70000
        (CZUpstream.status 201 (CZData.list [[("price", PyVal.int 9000)]]))).price
        = Option.none ∧
    (get_lowest_carzone_price "Toyota" "Corolla" "2015" 70000
        (CZUpstream.status 201 (CZData.list [[("price", PyVal.int 9000)]]))).error
        = some ("Carzone returned status " ++ toString 201) := ⟨rfl, rfl⟩

/-- C6 amended: for both sources, every raised exception (connection error,
timeout, decode failure) and every non-200 status — including other 2xx codes —
is returned as a classified error value with no price, a 200 status with a
usable body is not treated as an error, and the attempt functions are total
(they never propagate a fault). -/
theorem c6_amended (make model year : String) (mm : Int) :
    (∀ msg,
      (get_lowest_carzone_price make model year mm (CZUpstream.raises msg)).price
          = Option.none ∧
      (get_lowest_carzone_price make model year mm (CZUpstream.raises msg)).error
          = some ("Carzone error: " ++ msg)) ∧
    (∀ (code : Nat) (data : CZData), code ≠ 200 →
      (get_lowest_carzone_price make model year mm (CZUpstream.status code data)).price
          = Option.none ∧
      (get_lowest_carzone_price make model year mm (CZUpstream.status code data)).error
          = some ("Carzone returned status " ++ toString code)) ∧
    (∀ (data : CZData) (p : Rat), listMin (carzonePrices (czCars data)) = some p →
      get_lowest_carzone_price make model year mm (CZUpstream.status 200 data) =
        ⟨some p, carzoneSearchUrl make model year mm, Option.none⟩) ∧
    (∀ msg,
      (get_lowest_donedeal_price make model year (DDUpstream.raises msg)).price
          = Option.none ∧
      (get_lowest_donedeal_price make model year (DDUpstream.raises msg)).error
          = some ("DoneDeal error: " ++ msg)) ∧
    (∀ (code : Nat) (page : DDPage), code ≠ 200 →
      (get_lowest_donedeal_price make model year (DDUpstream.status code page)).price
          = Option.none ∧
      (get_lowest_donedeal_price make model year (DDUpstream.status code page)).error
          = some ("DoneDeal returned status " ++ toString code)) ∧
    (∀ (ads : List Ad) (p : Rat), ads ≠ [] →
      listMin (ddSelectPrices model ads) = some p →
      get_lowest_donedeal_price make model year
          (DDUpstream.status 200 (DDPage.nextData ads)) = ⟨some p, Option.none⟩) := by
  refine ⟨?_, ?_, ?_, ?_, ?_, ?_⟩
  · intro msg; exact ⟨rfl, rfl⟩
  · intro code data hc
    constructor <;> simp [get_lowest_carzone_price, hc]
  · intro data p hm
    simp [get_lowest_carzone_price, hm]
  · intro msg; exact ⟨rfl, rfl⟩
  · intro code page hc
    constructor <;> simp [get_lowest_donedeal_price, hc]
  · intro ads p hne hm
    cases ads with
    | nil => exact absurd rfl hne
    | cons a rest => simp [get_lowest_donedeal_price, hm]

/-- Witness for C6 amended: a 404 response is classified, not thrown. -/
theorem c6_amended_witness :
    (get_lowest_carzone_price "a" "b" "c" 0 (CZUpstream.status 404 (CZData.list []))).price
        = Option.none ∧
    (get_lowest_carzone_price "a" "b" "c" 0 (CZUpstream.status 404 (CZData.list []))).error
        = some ("Carzone returned status " ++ toString 404) :=
  (c6_amended "a" "b" "c" 0).2.1 404 (CZData.list []) (by decide)

/-- C7: on a 200 DoneDeal page with a non-empty ads list, if the
title-matching first pass eliminates every ad then the price is selected from
the relaxed second pass over the same ads (no title constraint), and the
no-match outcome is declared exactly when both passes yield no price. -/
theorem c7_relaxed_retry (make model year : String) (ads : List Ad) (h : ads ≠ []) :
    (ads.filterMap (ddPass1Price (pyLower (cleanStr model))) = [] →
      (get_lowest_donedeal_price make model year
          (DDUpstream.status 200 (DDPage.nextData ads))).price =
        listMin (ads.filterMap ddPass2Price)) ∧
    ((get_lowest_donedeal_price make model year
        (DDUpstream.status 200 (DDPage.nextData ads))).price = Option.none ↔
      (ads.filterMap (ddPass1Price (pyLower (cleanStr model))) = [] ∧
        ads.filterMap ddPass2Price = [])) := by
  cases ads with
  | nil => exact absurd rfl h
  | cons a rest =>
    constructor
    · intro hp1
      have hsel : ddSelectPrices model (a :: rest) = (a :: rest).filterMap ddPass2Price := by
        simp only [ddSelectPrices]
        rw [hp1]
      cases hm : listMin ((a :: rest).filterMap ddPass2Price) with
      | none => simp [get_lowest_donedeal_price, hsel, hm]
      | some m => simp [get_lowest_donedeal_price, hsel, hm]
    · cases hp1 : (a :: rest).filterMap (ddPass1Price (pyLower (cleanStr model))) with
      | nil =>
        have hsel : ddSelectPrices model (a :: rest) = (a :: rest).filterMap ddPass2Price := by
          simp only [ddSelectPrices]
          rw [hp1]
        cases hp2 : (a :: rest).filterMap ddPass2Price with
        | nil => simp [get_lowest_donedeal_price, hsel, hp2, listMin]
        | cons x xs => simp [get_lowest_donedeal_price, hsel, hp2, listMin]
      | cons x xs =>
        have hsel : ddSelectPrices model (a :: rest) = x :: xs := by
          simp only [ddSelectPrices]
          rw [hp1]
        simp [get_lowest_donedeal_price, hsel, listMin, hp1]

/-- A DoneDeal ad priced 8000 whose title does not mention the model. -/
def adC7 : Ad := ⟨some (PyVal.int 8000), some "Something Else", "", []⟩

/-- Witness for C7: with one non-matching ad the first pass is empty and the
relaxed second pass supplies the price. -/
theorem c7_relaxed_retry_witness :
    (get_lowest_donedeal_price "Toyota" "Corolla" "2015"
        (DDUpstream.status 200 (DDPage.nextData [adC7]))).price =
      listMin ([adC7].filterMap ddPass2Price) :=
  (c7_relaxed_retry "Toyota" "Corolla" "2015" [adC7] (by decide)).1 (by decide)

/-- C9: once the source attempts are reached, the Carzone search URL is in the
response on every outcome, and on total failure the response has success
false, status 503, and both per-source error messages. -/
theorem c9_url_on_every_outcome (mk md yr mi : Option String) (w : World)
    (h : validParams mk md yr) :
    (valuation mk md yr mi w).1.carzone_url =
      some (carzoneSearchUrl (vMake mk) (vModel md) (vYear yr) (vMaxMileage mi)) ∧
    ((valuation mk md yr mi w).1.success = false →
      (valuation mk md yr mi w).1.status = 503 ∧
      (∃ e, (valuation mk md yr mi w).1.error = some e) ∧
      (∃ e2, (valuation mk md yr mi w).1.donedeal_error = some e2)) := by
  have hurl : (czRes mk md yr mi w).url =
      carzoneSearchUrl (vMake mk) (vModel md) (vYear yr) (vMaxMileage mi) :=
    cz_url_eq _ _ _ _ _
  cases hp : (czRes mk md yr mi w).price with
  | some p =>
    refine ⟨by simp [valuation, h, hp, hurl], ?_⟩
    intro hs
    simp [valuation, h, hp] at hs
  | none =>
    cases hd : (ddRes mk md yr w).price with
    | some p =>
      refine ⟨by simp [valuation, h, hp, hd, hurl], ?_⟩
      intro hs
      simp [valuation, h, hp, hd] at hs
    | none =>
      refine ⟨by simp [valuation, h, hp, hd, hurl], ?_⟩
      intro hs
      refine ⟨by simp [valuation, h, hp, hd], ?_, ?_⟩
      · obtain ⟨e, he⟩ := cz_none_has_error (vMake mk) (vModel md) (vYear yr)
          (vMaxMileage mi) (w.carzone (vMake mk) (vModel md) (vYear yr) (vMaxMileage mi)) hp
        refine ⟨e, ?_⟩
        simp only [valuation, h, hp, hd]
        exact he
      · obtain ⟨e, he⟩ := dd_none_has_error (vMake mk) (vModel md) (vYear yr)
          (w.donedeal (vMake mk) (vModel md) (vYear yr)) hd
        refine ⟨e, ?_⟩
        simp only [valuation, h, hp, hd]
        exact he

/-- Witness for C9 at a world in which both sources fail. -/
theorem c9_url_on_every_outcome_witness :
    (valuation (some "Toyota") (some "Corolla") (some "2015") Option.none wFail).1.carzone_url =
      some (carzoneSearchUrl (vMake (some "Toyota")) (vModel (some "Corolla"))
        (vYear (some "2015")) (vMaxMileage Option.none)) :=
  (c9_url_on_every_outcome (some "Toyota") (some "Corolla") (some "2015") Option.none wFail
    (by decide)).1

/-- C10: the mileage ceiling sent to Carzone is the caller's mileage parameter
parsed as a Python int (0 when absent or malformed) plus 20000, and any
DoneDeal call uses a URL built from make, model and year only, with no
mileage constraint. -/
theorem c10_mileage_bounds (mk md yr mi : Option String) (w : World)
    (h : validParams mk md yr) :
    (valuation mk md yr mi w).2.head? =
      some (Call.carzone (vMake mk) (vModel md) (vYear yr)
        ((pyInt (pyStrip (mi.getD "0"))).getD 0 + 20000)) ∧
    (∀ u : String, Call.donedeal u ∈ (valuation mk md yr mi w).2 →
      u = donedealUrl (vMake mk) (vModel md) (vYear yr)) := by
  cases hp : (czRes mk md yr mi w).price with
  | some p =>
    refine ⟨by simp [valuation, h, hp, czCall, vMaxMileage, vMileage], ?_⟩
    intro u hu
    simp [valuation, h, hp, czCall] at hu
  | none =>
    cases hd : (ddRes mk md yr w).price with
    | some p =>
      refine ⟨by simp [valuation, h, hp, hd, czCall, vMaxMileage, vMileage], ?_⟩
      intro u hu
      simp [valuation, h, hp, hd, czCall, ddCall] at hu
      exact hu
    | none =>
      refine ⟨by simp [valuation, h, hp, hd, czCall, vMaxMileage, vMileage], ?_⟩
      intro u hu
      simp [valuation, h, hp, hd, czCall, ddCall] at hu
      exact hu

/-- Witness for C10: with the mileage parameter absent the ceiling is 20000. -/
theorem c10_mileage_bounds_witness :
    (valuation (some "Toyota") (some "Corolla") (some "2015") Option.none wFail).2.head? =
      some (Call.carzone (vMake (some "Toyota")) (vModel (some "Corolla"))
        (vYear (some "2015")) ((pyInt (pyStrip ((Option.none : Option String).getD "0"))).getD 0 + 20000)) :=
  (c10_mileage_bounds (some "Toyota") (some "Corolla") (some "2015") Option.none wFail
    (by decide)).1
